import Mathlib

/-!
Shallow embedding of the authentication / session / record-listing core of
`src/app.py` (a Flask web application), together with theorems settling the
specification claims about it.

Conventions of the embedding:
* Clock times are `Nat` seconds (`datetime.utcnow()` becomes an explicit
  `now : Nat` argument).
* The Flask session is a list of string key/value pairs; `session.clear()`
  is the empty list.
* The MongoDB collections are Lean lists of records; `find_one` is
  `List.find?`, `insert_one` appends, `sort('timestamp', -1)` is a merge
  sort by descending timestamp, and `cursor.limit(n)` follows the driver's
  semantics (`n = 0` means no limit, otherwise at most `|n|` documents).
* External libraries (PyJWT, flask-bcrypt, Python `int()`) are modelled as
  executable Lean functions mirroring their documented behaviour.
-/

namespace App

/-! ## Sessions (Flask server-side session as key/value pairs) -/

abbrev Session := List (String × String)

/-- Python membership test `key in session` on the session mapping. -/
def sessionHas (sess : Session) (key : String) : Bool :=
  (sess.lookup key).isSome

/-- Assignment `session[key] = value`: replace any existing binding for `key`. -/
def sessionSet (sess : Session) (key value : String) : Session :=
  (key, value) :: sess.filter (fun kv => kv.1 != key)

/-- Python truthiness of an optional form/request value: `None` and the
empty string are falsy (`if not token`, `all([...])`). -/
def truthy : Option String → Bool
  | none => false
  | some s => !s.isEmpty

/-! ## Token Service (`generate_token`, PyJWT encode/decode, HS256)

`app.config['JWT_ACCESS_TOKEN_EXPIRES'] = timedelta(hours=24)`. -/

def JWT_ACCESS_TOKEN_EXPIRES : Nat := 24 * 60 * 60

/-- The JWT claim set built in `generate_token`:
`{'user_id': str(user_id), 'exp': now + 24h, 'iat': now}`. -/
structure TokenPayload where
  user_id : String
  exp : Nat
  iat : Nat
deriving DecidableEq, Repr

/-- An encoded JWT: the claim set plus an HS256 signature over it. -/
structure Token where
  payload : TokenPayload
  sig : Nat
deriving DecidableEq, Repr

/-- Numeric code of a string, used to feed the payload into the MAC model. -/
def strCode (s : String) : Nat :=
  s.data.foldl (fun a c => a * 1114112 + c.toNat + 1) 1

/-- Model of the HS256 MAC: a deterministic function of the server secret
and the payload (`jwt.encode(payload, secret, algorithm='HS256')`). -/
def sign (secret : Nat) (p : TokenPayload) : Nat :=
  Nat.pair secret (Nat.pair (strCode p.user_id) (Nat.pair p.exp p.iat))

/-- The `generate_token(user_id)` call at clock time `now`: payload carries the user
identifier as a string, `iat = now`, `exp = now + 24 hours`, signed with the
server-held secret. -/
def generate_token (secret now : Nat) (user_id : String) : Token :=
  let payload : TokenPayload :=
    { user_id := user_id, exp := now + JWT_ACCESS_TOKEN_EXPIRES, iat := now }
  { payload := payload, sig := sign secret payload }

/-- Model of `jwt.decode(token, secret, algorithms=['HS256'])` at clock time `now`:
fails (raises, modelled as `none`) when the signature does not verify or
when the expiry claim is at or before the current time. -/
def jwtDecode (secret now : Nat) (t : Token) : Option TokenPayload :=
  if t.sig = sign secret t.payload then
    if t.payload.exp ≤ now then none else some t.payload
  else none

/-- The token-service validation function of the spec:
`validate(token) -> UserId | InvalidError`, the claim-set check performed
inside `token_required` before the user lookup. -/
def validate (secret now : Nat) (t : Token) : Option String :=
  (jwtDecode secret now t).map (fun p => p.user_id)

/-! ## Credential hashing (model of flask-bcrypt)

`bcrypt.generate_password_hash(password)` produces a modular-crypt string
`$2b$12$<22-char salt><digest>`; `bcrypt.check_password_hash(h, password)`
re-derives the digest from the stored salt and compares.  The digest is
modelled by an injective stand-in (the password's characters), which keeps
the round-trip property and the salted-format shape of the real library. -/

def bcryptHeader : String := "$2b$12$"

/-- Model of `bcrypt.generate_password_hash(password).decode('utf-8')` with
an explicit 22-character salt drawn by the library. -/
def generate_password_hash (salt password : String) : String :=
  String.mk (bcryptHeader.data ++ salt.data ++ password.data)

/-- Model of `bcrypt.check_password_hash(h, password)`: verify the
modular-crypt header and compare the stored digest against the digest
re-derived from the candidate password. -/
def check_password_hash (h password : String) : Bool :=
  h.data.take 7 == bcryptHeader.data && h.data.drop 29 == password.data

theorem generate_password_hash_ne_password (salt password : String)
    (hsalt : salt.length = 22) :
    generate_password_hash salt password ≠ password := by
  intro h
  have hlen := congrArg String.length h
  simp only [generate_password_hash, String.length, String.mk] at hlen
  simp only [List.length_append] at hlen
  have h7 : bcryptHeader.data.length = 7 := by decide
  have h22 : salt.data.length = 22 := hsalt
  omega

theorem check_password_hash_generate (salt password : String)
    (hsalt : salt.length = 22) :
    check_password_hash (generate_password_hash salt password) password = true := by
  have h22 : salt.data.length = 22 := hsalt
  simp only [check_password_hash, generate_password_hash, String.mk,
    Bool.and_eq_true, beq_iff_eq]
  constructor
  · rw [show bcryptHeader.data ++ salt.data ++ password.data =
        bcryptHeader.data ++ (salt.data ++ password.data) by simp]
    rw [show (7 : Nat) = bcryptHeader.data.length by decide]
    exact List.take_left bcryptHeader.data _
  · rw [show (29 : Nat) = (bcryptHeader.data ++ salt.data).length by
        simp [List.length_append, h22]; decide]
    exact List.drop_left _ password.data

/-! ## Credential Store (`users_collection`) -/

structure Preferences where
  theme : String
  notifications : Bool
  data_sharing : Bool
deriving DecidableEq, Repr

/-- A document of `users_collection`, as built by `signup`.  `_id` is the
hex string of the record's ObjectId. -/
structure User where
  _id : String
  username : String
  email : String
  password : String
  created_at : Nat
  last_login : Nat
  preferences : Preferences
deriving DecidableEq, Repr

/-- Lookup `users_collection.find_one({'email': email})`. -/
def find_one_email (users : List User) (email : String) : Option User :=
  users.find? (fun u => u.email == email)

/-- Lookup `users_collection.find_one({'username': username})`. -/
def find_one_username (users : List User) (username : String) : Option User :=
  users.find? (fun u => u.username == username)

/-! ## Signup (`POST /signup`) -/

inductive SignupOutcome where
  | redirectDashboard
  | formError (message : String)
  | created (user_id : String) (token : Token)
deriving DecidableEq, Repr

structure SignupResult where
  outcome : SignupOutcome
  users : List User
  sess : Session
deriving DecidableEq, Repr

/-- The `POST` branch of the `signup` route, where `username`/`email`/`password`/
`confirm_password` are `request.form.get(...)` results (absent fields are
`none`); `newId` is the ObjectId the driver generates for `insert_one`;
`salt` is the salt bcrypt draws.  Mirrors the source's check order: session,
field presence, password match, password length, duplicate email, duplicate
username, then insert. -/
def signup (sess : Session) (users : List User)
    (username email password confirm_password : Option String)
    (salt newId : String) (secret now : Nat) : SignupResult :=
  if sessionHas sess "user_id" then
    { outcome := .redirectDashboard, users := users, sess := sess }
  else if !(truthy username && truthy email && truthy password && truthy confirm_password) then
    { outcome := .formError "Please fill all fields", users := users, sess := sess }
  else
    let usernameS := username.getD ""
    let emailS := email.getD ""
    let passwordS := password.getD ""
    let confirmS := confirm_password.getD ""
    if passwordS ≠ confirmS then
      { outcome := .formError "Passwords do not match", users := users, sess := sess }
    else if passwordS.length < 6 then
      { outcome := .formError "Password must be at least 6 characters", users := users, sess := sess }
    else if (find_one_email users emailS).isSome then
      { outcome := .formError "Email already registered", users := users, sess := sess }
    else if (find_one_username users usernameS).isSome then
      { outcome := .formError "Username already taken", users := users, sess := sess }
    else
      let hashed_password := generate_password_hash salt passwordS
      let user : User :=
        { _id := newId, username := usernameS, email := emailS,
          password := hashed_password, created_at := now, last_login := now,
          preferences := { theme := "light", notifications := true, data_sharing := false } }
      let sess' := sessionSet (sessionSet sess "user_id" newId) "username" usernameS
      { outcome := .created newId (generate_token secret now newId),
        users := users ++ [user], sess := sess' }

/-! ## Login (`POST /login`) -/

inductive LoginOutcome where
  | redirectDashboard
  | formError (message : String)
  | invalidCredentials
  | success (user_id : String) (token : Token) (next_url : String)
deriving DecidableEq, Repr

structure LoginResult where
  outcome : LoginOutcome
  users : List User
  sess : Session
deriving DecidableEq, Repr

/-- The `POST` branch of the `login` route: session check, field presence,
`find_one` by email, bcrypt comparison; on success, set the session keys,
update `last_login`, pop `next_url` (falling back to the dashboard), and
issue a fresh token for the cookie. -/
def login (sess : Session) (users : List User)
    (email password : Option String) (secret now : Nat) : LoginResult :=
  if sessionHas sess "user_id" then
    { outcome := .redirectDashboard, users := users, sess := sess }
  else if !(truthy email && truthy password) then
    { outcome := .formError "Please fill all fields", users := users, sess := sess }
  else
    let emailS := email.getD ""
    let passwordS := password.getD ""
    match find_one_email users emailS with
    | some user =>
      if check_password_hash user.password passwordS then
        let sess1 := sessionSet (sessionSet sess "user_id" user._id) "username" user.username
        let users' := users.map (fun u =>
          if u._id == user._id then { u with last_login := now } else u)
        let next_url :=
          match sess1.lookup "next_url" with
          | some v => if v.isEmpty then "dashboard" else v
          | none => "dashboard"
        let sess2 := sess1.filter (fun kv => kv.1 != "next_url")
        { outcome := .success user._id (generate_token secret now user._id) next_url,
          users := users', sess := sess2 }
      else
        { outcome := .invalidCredentials, users := users, sess := sess }
    | none =>
      { outcome := .invalidCredentials, users := users, sess := sess }

/-! ## Logout and the session gate -/

structure CookieSetting where
  name : String
  value : String
  expires : Nat
deriving DecidableEq, Repr

structure LogoutResponse where
  redirectTo : String
  cookie : CookieSetting
deriving DecidableEq, Repr

/-- The `logout` route: `session.clear()`, redirect to the index page, and
`response.set_cookie('token', '', expires=0)`. -/
def logout (_sess : Session) : Session × LogoutResponse :=
  ([], { redirectTo := "index",
         cookie := { name := "token", value := "", expires := 0 } })

inductive GateResult where
  | proceed
  | redirectLogin
deriving DecidableEq, Repr

/-- The `login_required` decorator: admit when `'user_id' in session`,
otherwise record `next_url` and redirect to the login page. -/
def login_required (sess : Session) (url : String) : GateResult × Session :=
  if sessionHas sess "user_id" then (.proceed, sess)
  else (.redirectLogin, sessionSet sess "next_url" url)

/-! ## One-time session clear on process start -/

structure AppState where
  session_cleared : Bool
deriving DecidableEq, Repr

/-- Process state at startup: `hasattr(app, 'session_cleared')` is false. -/
def initialAppState : AppState := { session_cleared := false }

/-- The `clear_session_on_start` before-request hook: clear the session and
set the one-time flag on the first request, do nothing afterwards.  The
returned `Bool` records whether the clear fired. -/
def clear_session_on_start (st : AppState) (sess : Session) :
    AppState × Session × Bool :=
  if !st.session_cleared then ({ session_cleared := true }, [], true)
  else (st, sess, false)

/-- Run the before-request hook over a sequence of incoming requests,
threading the process state; collects which requests fired the clear. -/
def clearTrace : AppState → List Session → List Bool
  | _, [] => []
  | st, sess :: rest =>
    let r := clear_session_on_start st sess
    r.2.2 :: clearTrace r.1 rest

/-! ## Token-based access control middleware (`token_required`) -/

/-- The parts of a Flask request the middleware inspects. -/
structure Request where
  cookies : List (String × String)
  headers : List (String × String)
  acceptsJson : Bool
  url : String
  endpoint : Option String
deriving DecidableEq, Repr

/-- Token extraction inside `token_required`: take the `token` cookie; when
that left `token` falsy (absent or empty), look at the `Authorization`
header and, if it starts with `Bearer `, take `auth_header.split(' ')[1]`. -/
def extractToken (req : Request) : Option String :=
  let token := req.cookies.lookup "token"
  if !truthy token then
    match req.headers.lookup "Authorization" with
    | some auth_header =>
      if auth_header.startsWith "Bearer " then
        some ((auth_header.splitOn " ").getD 1 "")
      else token
    | none => token
  else token

inductive AuthResult where
  | missingToken401
  | missingTokenRedirect
  | invalidToken401
  | invalidTokenRedirect
  | handlerInvoked (current_user : User)
deriving DecidableEq, Repr

/-- The `token_required` decorator up to the point where the wrapped handler
runs.  `decode` models `jwt.decode` on the wire string (the PyJWT codec is
external to the repository); any failure inside the `try` block — bad
signature, malformed token, expired claim, or the `ObjectId`/user lookup
failing — lands in the invalid-token branch.  Missing tokens store
`next_url` (except for the `static` endpoint) and answer 401 JSON for
JSON-accepting callers, otherwise redirect to login.  Only
`AuthResult.handlerInvoked` reaches the wrapped handler. -/
def token_required (decode : String → Option TokenPayload) (users : List User)
    (req : Request) (sess : Session) : AuthResult × Session :=
  let token := extractToken req
  if !truthy token then
    let sess' :=
      if req.endpoint.isSome && req.endpoint != some "static" then
        sessionSet sess "next_url" req.url
      else sess
    if req.acceptsJson then (.missingToken401, sess')
    else (.missingTokenRedirect, sess')
  else
    match decode (token.getD "") with
    | some payload =>
      match users.find? (fun u => u._id == payload.user_id) with
      | some current_user => (.handlerInvoked current_user, sess)
      | none =>
        if req.acceptsJson then (.invalidToken401, sess)
        else (.invalidTokenRedirect, sess)
    | none =>
      if req.acceptsJson then (.invalidToken401, sess)
      else (.invalidTokenRedirect, sess)

/-! ## Record Service (`actions_collection`, `analyses_collection`) -/

/-- A BSON value as it matters for the `user_id` field: either a raw
ObjectId or its string rendering (`str(user['_id'])`).  MongoDB equality
never identifies the two. -/
inductive BsonVal where
  | oid (s : String)
  | str (s : String)
deriving DecidableEq, Repr

structure ActionRec where
  _id : String
  user_id : BsonVal
  action_type : String
  description : String
  timestamp : Nat
  metadata : List (String × String)
deriving DecidableEq, Repr

structure AnalysisRec where
  _id : String
  user_id : BsonVal
  analysis_type : String
  results : List (String × String)
  timestamp : Nat
  metrics : List (String × String)
deriving DecidableEq, Repr

/-- The `.sort('timestamp', -1)` step: order by descending timestamp. -/
def sortNewestFirst (ts : α → Nat) (l : List α) : List α :=
  l.mergeSort (fun a b => ts b ≤ ts a)

/-- Model of `cursor.limit(n)` with the driver's semantics: `n = 0` imposes no
limit, any other `n` returns at most `|n|` documents. -/
def mongoLimit (n : Int) (l : List α) : List α :=
  if n = 0 then l else l.take n.natAbs

/-- The query of the `GET /api/actions` branch:
`actions_collection.find({'user_id': uid}).sort('timestamp', -1).limit(limit)`. -/
def listActions (actions : List ActionRec) (uid : BsonVal) (limit : Int) :
    List ActionRec :=
  mongoLimit limit
    (sortNewestFirst (fun a => a.timestamp) (actions.filter (fun a => a.user_id == uid)))

/-- The query of the `GET /api/analyses` branch. -/
def listAnalyses (analyses : List AnalysisRec) (uid : BsonVal) (limit : Int) :
    List AnalysisRec :=
  mongoLimit limit
    (sortNewestFirst (fun a => a.timestamp) (analyses.filter (fun a => a.user_id == uid)))

/-- The dashboard's action query (session-gated path):
`actions_collection.find({'user_id': user_id}).sort('timestamp', -1).limit(10)`
where `user_id = session.get('user_id')` is a **string**. -/
def dashboardActions (actions : List ActionRec) (session_user_id : String) :
    List ActionRec :=
  mongoLimit 10
    (sortNewestFirst (fun a => a.timestamp)
      (actions.filter (fun a => a.user_id == BsonVal.str session_user_id)))

/-! ## Python `int()` on strings -/

/-- Digits after the first one: a digit, or an underscore followed by a
digit (Python's numeric-literal underscore rule). -/
def pyDigitsGo (acc : Nat) : List Char → Option Nat
  | [] => some acc
  | '_' :: c :: rest =>
    if c.isDigit then pyDigitsGo (acc * 10 + (c.toNat - 48)) rest else none
  | ['_'] => none
  | c :: rest =>
    if c.isDigit then pyDigitsGo (acc * 10 + (c.toNat - 48)) rest else none

/-- A nonempty underscore-separated digit string. -/
def pyNatOfDigits : List Char → Option Nat
  | [] => none
  | c :: rest => if c.isDigit then pyDigitsGo (c.toNat - 48) rest else none

/-- Strip leading and trailing whitespace from a character list. -/
def pyStrip (cs : List Char) : List Char :=
  ((cs.dropWhile Char.isWhitespace).reverse.dropWhile Char.isWhitespace).reverse

/-- Model of Python `int(s)` for a string argument: strip whitespace, an
optional sign, then ASCII digits with optional single underscores between
them; anything else raises `ValueError` (modelled as `none`). -/
def pyInt (s : String) : Option Int :=
  match pyStrip s.data with
  | '+' :: rest => (pyNatOfDigits rest).map (fun n => (n : Int))
  | '-' :: rest => (pyNatOfDigits rest).map (fun n => -(n : Int))
  | cs => (pyNatOfDigits cs).map (fun n => (n : Int))

/-! ## The API route handlers -/

inductive PyError where
  | valueError
deriving DecidableEq, Repr

/-- Handler of `GET /api/actions` after `token_required` resolved `current_user`:
`limit = int(request.args.get('limit', 10))` — the default applies only
when the query parameter is absent, and a present but unparseable value
raises uncaught at the `int()` call, before any database query. -/
def apiActionsGet (actions : List ActionRec) (current_user : User)
    (limitParam : Option String) : Except PyError (List ActionRec) :=
  match limitParam with
  | none => .ok (listActions actions (BsonVal.oid current_user._id) 10)
  | some s =>
    match pyInt s with
    | none => .error .valueError
    | some n => .ok (listActions actions (BsonVal.oid current_user._id) n)

/-- Handler of `GET /api/analyses`, default limit 5. -/
def apiAnalysesGet (analyses : List AnalysisRec) (current_user : User)
    (limitParam : Option String) : Except PyError (List AnalysisRec) :=
  match limitParam with
  | none => .ok (listAnalyses analyses (BsonVal.oid current_user._id) 5)
  | some s =>
    match pyInt s with
    | none => .error .valueError
    | some n => .ok (listAnalyses analyses (BsonVal.oid current_user._id) n)

structure ActionPostBody where
  action_type : Option String
  description : Option String
  metadata : List (String × String)
deriving DecidableEq, Repr

inductive PostResult where
  | badRequest
  | createdRec (record_id : String)
deriving DecidableEq, Repr

/-- Handler of `POST /api/actions`: insert a document whose `user_id` field is the raw
`current_user['_id']` ObjectId (not its string form). -/
def apiActionsPost (actions : List ActionRec) (current_user : User)
    (data : Option ActionPostBody) (newId : String) (now : Nat) :
    PostResult × List ActionRec :=
  match data with
  | none => (.badRequest, actions)
  | some d =>
    let action : ActionRec :=
      { _id := newId,
        user_id := BsonVal.oid current_user._id,
        action_type := d.action_type.getD "unknown",
        description := d.description.getD "",
        timestamp := now,
        metadata := d.metadata }
    (.createdRec newId, actions ++ [action])

/-! ## Helper lemmas about the Mongo query shape -/

/-- Anything returned by a `find(filter).sort(...).limit(...)` query is a
stored record matching the filter. -/
theorem mem_mongo_query {ts : α → Nat} {p : α → Bool} {l : List α} {n : Int}
    {r : α} (h : r ∈ mongoLimit n (sortNewestFirst ts (l.filter p))) :
    r ∈ l ∧ p r = true := by
  have h' : r ∈ sortNewestFirst ts (l.filter p) := by
    unfold mongoLimit at h
    split at h
    · exact h
    · exact List.mem_of_mem_take h
  simp only [sortNewestFirst, List.mem_mergeSort, List.mem_filter] at h'
  exact h'

/-- The sort step yields a list ordered by descending timestamp. -/
theorem pairwise_sortNewestFirst (ts : α → Nat) (l : List α) :
    (sortNewestFirst ts l).Pairwise (fun x y => ts y ≤ ts x) := by
  have htrans : ∀ (a b c : α),
      (fun a b => decide (ts b ≤ ts a)) a b →
      (fun a b => decide (ts b ≤ ts a)) b c →
      (fun a b => decide (ts b ≤ ts a)) a c := by
    intro a b c hab hbc
    simp only [decide_eq_true_eq] at *
    omega
  have htotal : ∀ (a b : α),
      ((fun a b => decide (ts b ≤ ts a)) a b
        || (fun a b => decide (ts b ≤ ts a)) b a) = true := by
    intro a b
    simp only [Bool.or_eq_true, decide_eq_true_eq]
    omega
  have h := List.sorted_mergeSort htrans htotal l
  exact h.imp (fun hab => by simpa using hab)

/-- The limit step never lengthens the result beyond `|n|` for `n ≠ 0`. -/
theorem length_mongoLimit {n : Int} (hn : n ≠ 0) (l : List α) :
    (mongoLimit n l).length ≤ n.natAbs := by
  unfold mongoLimit
  rw [if_neg hn]
  simp [List.length_take]

/-! ## Claim theorems -/

/-- Claim C1: for every user identifier `u`, validating a token immediately
after it is issued for `u` returns `u`; the token's expiry is fixed at 24
hours from issuance; and validation fails (invalid-token error, `none`)
whenever the current time is at or after that expiry. -/
theorem validate_issue_roundtrip_and_expiry (secret t now : Nat) (u : String) :
    validate secret t (generate_token secret t u) = some u
    ∧ (generate_token secret t u).payload.exp = t + 24 * 60 * 60
    ∧ (t + 24 * 60 * 60 ≤ now → validate secret now (generate_token secret t u) = none) := by
  refine ⟨?_, rfl, fun h => ?_⟩
  · simp [validate, jwtDecode, generate_token, JWT_ACCESS_TOKEN_EXPIRES]
  · simp [validate, jwtDecode, generate_token, JWT_ACCESS_TOKEN_EXPIRES, h]

theorem validate_issue_roundtrip_and_expiry_witness :
    validate 1 0 (generate_token 1 0 "abc") = some "abc"
    ∧ validate 1 86400 (generate_token 1 0 "abc") = none :=
  ⟨(validate_issue_roundtrip_and_expiry 1 0 0 "abc").1,
   (validate_issue_roundtrip_and_expiry 1 0 86400 "abc").2.2 (by decide)⟩

/-- Claim C5: `token_required` takes the bearer token from the `token`
cookie first — with a (nonempty) cookie token the `Authorization` header is
never consulted — and a request carrying neither a token cookie nor an
`Authorization` header is rejected with 401 JSON for JSON-accepting callers
and a redirect to login otherwise, without ever invoking the wrapped
handler. -/
theorem token_required_cookie_first_and_missing_rejected
    (decode : String → Option TokenPayload) (users : List User)
    (req : Request) (sess : Session) :
    (∀ v, req.cookies.lookup "token" = some v → v ≠ "" → extractToken req = some v)
    ∧ (req.cookies.lookup "token" = none →
        req.headers.lookup "Authorization" = none →
        (token_required decode users req sess).1 =
          (if req.acceptsJson then AuthResult.missingToken401
           else AuthResult.missingTokenRedirect)
        ∧ ∀ u, (token_required decode users req sess).1 ≠ AuthResult.handlerInvoked u) := by
  constructor
  · intro v hv hne
    have hemp : v.isEmpty = false := by
      cases h : v.isEmpty
      · rfl
      · exact absurd ((String.isEmpty_iff v).mp h) hne
    simp [extractToken, hv, truthy, hemp]
  · intro hc hh
    have hext : extractToken req = none := by
      simp [extractToken, hc, hh, truthy]
    have hres : (token_required decode users req sess).1 =
        (if req.acceptsJson then AuthResult.missingToken401
         else AuthResult.missingTokenRedirect) := by
      simp only [token_required, hext, truthy, Bool.not_false, if_true]
      cases req.acceptsJson <;> simp
    refine ⟨hres, fun u hu => ?_⟩
    rw [hres] at hu
    cases h : req.acceptsJson <;> rw [h] at hu <;> simp at hu

theorem token_required_cookie_first_and_missing_rejected_witness :
    extractToken
      { cookies := [("token", "abc")], headers := [("Authorization", "Bearer zzz")],
        acceptsJson := true, url := "/api/user", endpoint := some "api_get_user" }
      = some "abc"
    ∧ (token_required (fun _ => none) []
        { cookies := [], headers := [], acceptsJson := true,
          url := "/api/user", endpoint := some "api_get_user" } []).1
      = AuthResult.missingToken401 := by
  constructor
  · exact (token_required_cookie_first_and_missing_rejected (fun _ => none) []
      { cookies := [("token", "abc")], headers := [("Authorization", "Bearer zzz")],
        acceptsJson := true, url := "/api/user", endpoint := some "api_get_user" } []).1
      "abc" rfl (by decide)
  · have h := (token_required_cookie_first_and_missing_rejected (fun _ => none) []
      { cookies := [], headers := [], acceptsJson := true,
        url := "/api/user", endpoint := some "api_get_user" } []).2 rfl rfl
    simpa using h.1

/-- Claim C6: logout clears all session keys and expires the token cookie,
and any later request to a `login_required` page with the cleared session
(no `user_id` key) fails the access check and is redirected to the login
page instead of reaching the page handler. -/
theorem logout_clears_and_protected_redirects (sess : Session) (url : String) :
    (logout sess).1 = []
    ∧ (logout sess).2.cookie = { name := "token", value := "", expires := 0 }
    ∧ sessionHas (logout sess).1 "user_id" = false
    ∧ (login_required (logout sess).1 url).1 = GateResult.redirectLogin :=
  ⟨rfl, rfl, rfl, rfl⟩

/-- Claim C7: starting from process start (flag unset), the first request
handled clears the session and sets the one-time flag, and the automatic
clear never fires again on any later request of the same process. -/
theorem session_cleared_exactly_once (first : Session) (rest : List Session) :
    (clear_session_on_start initialAppState first).2.1 = []
    ∧ (clear_session_on_start initialAppState first).1.session_cleared = true
    ∧ clearTrace initialAppState (first :: rest) = true :: rest.map (fun _ => false) := by
  refine ⟨rfl, rfl, ?_⟩
  have hcleared : ∀ (l : List Session) (st : AppState),
      st.session_cleared = true → clearTrace st l = l.map (fun _ => false) := by
    intro l
    induction l with
    | nil => intro st _; rfl
    | cons s rest ih =>
      intro st h
      simp only [clearTrace, clear_session_on_start, h, Bool.not_true, List.map_cons]
      exact congrArg (false :: ·) (ih st h)
  simp only [clearTrace, clear_session_on_start, initialAppState, Bool.not_false, List.map_cons]
  exact congrArg (true :: ·) (hcleared rest { session_cleared := true } rfl)

/-- Claim C10: a `GET /api/actions` or `GET /api/analyses` request whose
`limit` query parameter is present but not parseable as an integer raises
an uncaught `ValueError` at the `int()` conversion, before any database
query — it neither returns 400 nor falls back to the default limit; the
error is independent of the store contents. -/
theorem limit_unparseable_raises (actions : List ActionRec)
    (analyses : List AnalysisRec) (current_user : User) (s : String)
    (h : pyInt s = none) :
    apiActionsGet actions current_user (some s) = .error .valueError
    ∧ apiAnalysesGet analyses current_user (some s) = .error .valueError := by
  constructor <;> simp [apiActionsGet, apiAnalysesGet, h]

theorem limit_unparseable_raises_witness :
    pyInt "abc" = none
    ∧ apiActionsGet []
        { _id := "a", username := "alice", email := "a@x.com", password := "h",
          created_at := 0, last_login := 0,
          preferences := { theme := "light", notifications := true, data_sharing := false } }
        (some "abc") = .error .valueError := by
  refine ⟨by decide, ?_⟩
  exact (limit_unparseable_raises [] []
    { _id := "a", username := "alice", email := "a@x.com", password := "h",
      created_at := 0, last_login := 0,
      preferences := { theme := "light", notifications := true, data_sharing := false } }
    "abc" (by decide)).1

/-- Claim C4: for every store state, every pair of distinct user
identifiers `a ≠ b` and every limit value, listing actions (or analyses)
for `a` returns only records whose `user_id` equals `a`, and never a record
whose `user_id` is `b`. -/
theorem listing_never_crosses_users (actions : List ActionRec)
    (analyses : List AnalysisRec) (a b : BsonVal) (limit : Int) (hab : a ≠ b) :
    (∀ r ∈ listActions actions a limit, r.user_id = a ∧ r.user_id ≠ b)
    ∧ (∀ r ∈ listAnalyses analyses a limit, r.user_id = a ∧ r.user_id ≠ b) := by
  constructor
  · intro r hr
    unfold listActions at hr
    have heq : r.user_id = a := by simpa using (mem_mongo_query hr).2
    exact ⟨heq, heq ▸ hab⟩
  · intro r hr
    unfold listAnalyses at hr
    have heq : r.user_id = a := by simpa using (mem_mongo_query hr).2
    exact ⟨heq, heq ▸ hab⟩

theorem listing_never_crosses_users_witness :
    ({ _id := "r1", user_id := BsonVal.oid "A", action_type := "squat",
       description := "10 reps", timestamp := 3, metadata := [] } : ActionRec).user_id
      = BsonVal.oid "A"
    ∧ ({ _id := "r1", user_id := BsonVal.oid "A", action_type := "squat",
         description := "10 reps", timestamp := 3, metadata := [] } : ActionRec).user_id
      ≠ BsonVal.oid "B" :=
  (listing_never_crosses_users
    [{ _id := "r1", user_id := BsonVal.oid "A", action_type := "squat",
       description := "10 reps", timestamp := 3, metadata := [] }]
    [] (BsonVal.oid "A") (BsonVal.oid "B") 10 (by decide)).1
    { _id := "r1", user_id := BsonVal.oid "A", action_type := "squat",
      description := "10 reps", timestamp := 3, metadata := [] }
    (by simp [listActions, mongoLimit, sortNewestFirst])

/-- Claim C9: a record created through `POST /api/actions` stores the
owning user as a raw ObjectId, while the dashboard page filters on the
session's string identifier; hence the dashboard query never returns any
record created through the API for that same user, and the two listing
paths (dashboard vs `GET /api/actions`) are not equivalent — the API GET
sees the new record, the dashboard does not. -/
theorem api_insert_invisible_to_dashboard (actions : List ActionRec)
    (current_user : User) (d : ActionPostBody) (newId : String) (now : Nat) :
    (∀ sid : String, ∀ r ∈ dashboardActions actions sid,
      r.user_id = BsonVal.str sid)
    ∧ ∃ rec : ActionRec,
        (apiActionsPost actions current_user (some d) newId now).2 = actions ++ [rec]
        ∧ rec.user_id = BsonVal.oid current_user._id
        ∧ rec ∉ dashboardActions (actions ++ [rec]) current_user._id
        ∧ rec ∈ listActions (actions ++ [rec]) (BsonVal.oid current_user._id) 0 := by
  constructor
  · intro sid r hr
    unfold dashboardActions at hr
    simpa using (mem_mongo_query hr).2
  · refine ⟨_, rfl, rfl, fun hmem => ?_, ?_⟩
    · unfold dashboardActions at hmem
      have := (mem_mongo_query hmem).2
      simp at this
    · simp [listActions, mongoLimit, sortNewestFirst, List.mem_filter]

theorem api_insert_invisible_to_dashboard_witness :
    (apiActionsPost []
      { _id := "A", username := "alice", email := "a@x.com", password := "h",
        created_at := 0, last_login := 0,
        preferences := { theme := "light", notifications := true, data_sharing := false } }
      (some { action_type := some "squat", description := some "10 reps", metadata := [] })
      "r1" 3).2
    = [] ++ [{ _id := "r1", user_id := BsonVal.oid "A", action_type := "squat",
               description := "10 reps", timestamp := 3, metadata := [] }]
    ∧ ({ _id := "r1", user_id := BsonVal.oid "A", action_type := "squat",
         description := "10 reps", timestamp := 3, metadata := [] } : ActionRec)
      ∈ listActions
          ([] ++ [{ _id := "r1", user_id := BsonVal.oid "A", action_type := "squat",
                    description := "10 reps", timestamp := 3, metadata := [] }])
          (BsonVal.oid "A") 0
    ∧ dashboardActions
        ([] ++ [{ _id := "r1", user_id := BsonVal.oid "A", action_type := "squat",
                  description := "10 reps", timestamp := 3, metadata := [] }])
        "A"
      = [] := by
  obtain ⟨-, rec, h1, -, -, h4⟩ := api_insert_invisible_to_dashboard []
    { _id := "A", username := "alice", email := "a@x.com", password := "h",
      created_at := 0, last_login := 0,
      preferences := { theme := "light", notifications := true, data_sharing := false } }
    { action_type := some "squat", description := some "10 reps", metadata := [] }
    "r1" 3
  have h1' : ([{ _id := "r1", user_id := BsonVal.oid "A", action_type := "squat",
                 description := "10 reps", timestamp := 3, metadata := [] }] : List ActionRec)
      = [] ++ [rec] := h1
  have hrec : rec = { _id := "r1", user_id := BsonVal.oid "A", action_type := "squat",
                      description := "10 reps", timestamp := 3, metadata := [] } := by
    simp only [List.nil_append] at h1'
    injection h1' with h _
    exact h.symm
  rw [hrec] at h1 h4
  refine ⟨h1, h4, ?_⟩
  unfold dashboardActions
  rw [show List.filter
      (fun a => a.user_id == BsonVal.str "A")
      ([] ++ [({ _id := "r1", user_id := BsonVal.oid "A", action_type := "squat",
                 description := "10 reps", timestamp := 3, metadata := [] } : ActionRec)])
      = [] from rfl]
  simp [sortNewestFirst, mongoLimit]

/-- Claim C8 (amended): listing returns the user's records sorted
newest-first; the result is capped at `|limit|` whenever the caller-supplied
limit is nonzero, while a limit of 0 disables the cap entirely (the
database driver's `limit` semantics); the limit defaults to 10 for actions
and 5 for analyses when the caller supplies none. -/
theorem listing_sorted_capped_defaults (actions : List ActionRec)
    (analyses : List AnalysisRec) (current_user : User) (uid : BsonVal) (n : Int) :
    (listActions actions uid n).Pairwise (fun x y => y.timestamp ≤ x.timestamp)
    ∧ (n ≠ 0 → (listActions actions uid n).length ≤ n.natAbs)
    ∧ (listActions actions uid 0 =
        sortNewestFirst (fun a => a.timestamp)
          (actions.filter (fun a => a.user_id == uid)))
    ∧ apiActionsGet actions current_user none =
        .ok (listActions actions (BsonVal.oid current_user._id) 10)
    ∧ (listAnalyses analyses uid n).Pairwise (fun x y => y.timestamp ≤ x.timestamp)
    ∧ (n ≠ 0 → (listAnalyses analyses uid n).length ≤ n.natAbs)
    ∧ apiAnalysesGet analyses current_user none =
        .ok (listAnalyses analyses (BsonVal.oid current_user._id) 5) := by
  refine ⟨?_, fun hn => ?_, ?_, rfl, ?_, fun hn => ?_, rfl⟩
  · unfold listActions mongoLimit
    split
    · exact pairwise_sortNewestFirst _ _
    · exact (pairwise_sortNewestFirst _ _).sublist (List.take_sublist _ _)
  · exact length_mongoLimit hn _
  · simp [listActions, mongoLimit]
  · unfold listAnalyses mongoLimit
    split
    · exact pairwise_sortNewestFirst _ _
    · exact (pairwise_sortNewestFirst _ _).sublist (List.take_sublist _ _)
  · exact length_mongoLimit hn _

theorem listing_sorted_capped_defaults_witness :
    (listActions
      [{ _id := "r1", user_id := BsonVal.oid "A", action_type := "squat",
         description := "10 reps", timestamp := 3, metadata := [] }]
      (BsonVal.oid "A") 1).length ≤ (1 : Int).natAbs
    ∧ apiActionsGet []
        { _id := "A", username := "alice", email := "a@x.com", password := "h",
          created_at := 0, last_login := 0,
          preferences := { theme := "light", notifications := true, data_sharing := false } }
        none
      = .ok (listActions [] (BsonVal.oid "A") 10) :=
  ⟨(listing_sorted_capped_defaults
      [{ _id := "r1", user_id := BsonVal.oid "A", action_type := "squat",
         description := "10 reps", timestamp := 3, metadata := [] }]
      []
      { _id := "A", username := "alice", email := "a@x.com", password := "h",
        created_at := 0, last_login := 0,
        preferences := { theme := "light", notifications := true, data_sharing := false } }
      (BsonVal.oid "A") 1).2.1 (by decide),
   (listing_sorted_capped_defaults []
      []
      { _id := "A", username := "alice", email := "a@x.com", password := "h",
        created_at := 0, last_login := 0,
        preferences := { theme := "light", notifications := true, data_sharing := false } }
      (BsonVal.oid "A") 1).2.2.2.1⟩

/-- Claim C8 as frozen is false at limit 0: the caller can supply
`limit=0`, which the driver treats as "no limit", so the result is not
capped at the caller-supplied value — here one record comes back although
the supplied limit is 0. -/
theorem listing_limit_zero_uncapped_counterexample :
    apiActionsGet
      [{ _id := "r1", user_id := BsonVal.oid "A", action_type := "squat",
         description := "10 reps", timestamp := 3, metadata := [] }]
      { _id := "A", username := "alice", email := "a@x.com", password := "h",
        created_at := 0, last_login := 0,
        preferences := { theme := "light", notifications := true, data_sharing := false } }
      (some "0")
      = .ok (listActions
          [{ _id := "r1", user_id := BsonVal.oid "A", action_type := "squat",
             description := "10 reps", timestamp := 3, metadata := [] }]
          (BsonVal.oid "A") 0)
    ∧ (listActions
        [{ _id := "r1", user_id := BsonVal.oid "A", action_type := "squat",
           description := "10 reps", timestamp := 3, metadata := [] }]
        (BsonVal.oid "A") 0).length = 1
    ∧ ¬((1 : Nat) ≤ (0 : Int).natAbs) := by
  refine ⟨rfl, ?_, by decide⟩
  simp [listActions, mongoLimit, sortNewestFirst]

/-- A valid signup follows the insert branch: the stored record carries the
salted hash, the session gains both keys, and a token is issued. -/
theorem signup_success (sess : Session) (users : List User)
    (username email password salt newId : String) (secret now : Nat)
    (hanon : sessionHas sess "user_id" = false)
    (hu : username.isEmpty = false) (he : email.isEmpty = false)
    (hp : password.isEmpty = false)
    (hlen : ¬password.length < 6)
    (hemail : find_one_email users email = none)
    (huser : find_one_username users username = none) :
    signup sess users (some username) (some email) (some password) (some password)
        salt newId secret now
      = { outcome := .created newId (generate_token secret now newId),
          users := users ++
            [{ _id := newId, username := username, email := email,
               password := generate_password_hash salt password,
               created_at := now, last_login := now,
               preferences := { theme := "light", notifications := true,
                                data_sharing := false } }],
          sess := sessionSet (sessionSet sess "user_id" newId) "username" username } := by
  unfold signup
  rw [hanon]
  simp only [Bool.false_eq_true, if_false, truthy, Option.getD_some, hu, he, hp,
    Bool.not_false, Bool.and_self, Bool.not_true, ne_self_iff_false, hemail, huser,
    Option.isSome_none, if_neg hlen]

/-- Claim C2: for every valid signup (all fields present, matching
passwords, password length ≥ 6, fresh email and username), the stored
password is the salted hash and never equals the plaintext, and a
subsequent login with the same email and the original plaintext succeeds
(the hash comparison accepts it). -/
theorem signup_hashes_password_and_login_succeeds
    (sess : Session) (users : List User)
    (username email password salt newId : String) (secret now now2 : Nat)
    (hanon : sessionHas sess "user_id" = false)
    (hu : username.isEmpty = false) (he : email.isEmpty = false)
    (hp : password.isEmpty = false)
    (hlen : 6 ≤ password.length)
    (hemail : find_one_email users email = none)
    (huser : find_one_username users username = none)
    (hsalt : salt.length = 22) :
    ∃ u : User,
      (signup sess users (some username) (some email) (some password)
          (some password) salt newId secret now).users = users ++ [u]
      ∧ u.email = email
      ∧ u.password = generate_password_hash salt password
      ∧ u.password ≠ password
      ∧ (login [] ((signup sess users (some username) (some email) (some password)
            (some password) salt newId secret now).users)
          (some email) (some password) secret now2).outcome
        = .success newId (generate_token secret now2 newId) "dashboard" := by
  rw [signup_success sess users username email password salt newId secret now
    hanon hu he hp (by omega) hemail huser]
  refine ⟨_, rfl, rfl, rfl, generate_password_hash_ne_password salt password hsalt, ?_⟩
  unfold login
  have hsess : sessionHas ([] : Session) "user_id" = false := rfl
  rw [hsess]
  simp only [Bool.false_eq_true, if_false, truthy, Option.getD_some, he, hp,
    Bool.not_false, Bool.and_self, Bool.not_true]
  have hfind : find_one_email
      (users ++
        [{ _id := newId, username := username, email := email,
           password := generate_password_hash salt password,
           created_at := now, last_login := now,
           preferences := { theme := "light", notifications := true,
                            data_sharing := false } }]) email
      = some
        { _id := newId, username := username, email := email,
          password := generate_password_hash salt password,
          created_at := now, last_login := now,
          preferences := { theme := "light", notifications := true,
                           data_sharing := false } } := by
    unfold find_one_email at hemail ⊢
    rw [List.find?_append, hemail]
    simp
  rw [hfind]
  dsimp only
  rw [check_password_hash_generate salt password hsalt]
  simp only [sessionSet, List.filter, if_true]
  rfl

theorem signup_hashes_password_and_login_succeeds_witness :
    generate_password_hash "0123456789012345678901" "secret1" ≠ "secret1"
    ∧ (login [] ((signup [] [] (some "alice") (some "a@x.com") (some "secret1")
          (some "secret1") "0123456789012345678901" "id1" 0 0).users)
        (some "a@x.com") (some "secret1") 0 1).outcome
      = .success "id1" (generate_token 0 1 "id1") "dashboard" := by
  obtain ⟨u, -, -, h3, h4, h5⟩ :=
    signup_hashes_password_and_login_succeeds [] [] "alice" "a@x.com" "secret1"
      "0123456789012345678901" "id1" 0 0 1 rfl rfl rfl rfl (by decide) rfl rfl
      (by decide)
  exact ⟨h3 ▸ h4, h5⟩

/-- Claim C3: every signup request whose email already belongs to an
existing user record performs no insert — the set of user records is
unchanged — and (for a request that reaches the form handling, i.e. an
anonymous caller) the form is re-rendered with an error message. -/
theorem duplicate_email_signup_rejected (sess : Session) (users : List User)
    (username password confirm : Option String) (email salt newId : String)
    (secret now : Nat) (u0 : User)
    (hdup : find_one_email users email = some u0) :
    (signup sess users username (some email) password confirm
        salt newId secret now).users = users
    ∧ (sessionHas sess "user_id" = false →
        ∃ msg, (signup sess users username (some email) password confirm
            salt newId secret now).outcome = .formError msg) := by
  unfold signup
  dsimp only
  simp only [Option.getD_some]
  constructor
  · split
    · rfl
    split
    · rfl
    split
    · rfl
    split
    · rfl
    split
    · rfl
    · rename_i hmail
      rw [hdup] at hmail
      simp at hmail
  · intro hs
    rw [hs]
    simp only [Bool.false_eq_true, if_false]
    split
    · exact ⟨_, rfl⟩
    split
    · exact ⟨_, rfl⟩
    split
    · exact ⟨_, rfl⟩
    split
    · exact ⟨_, rfl⟩
    · rename_i hmail
      rw [hdup] at hmail
      simp at hmail

theorem duplicate_email_signup_rejected_witness :
    (signup []
      [{ _id := "id0", username := "alice", email := "a@x.com",
         password := "h", created_at := 0, last_login := 0,
         preferences := { theme := "light", notifications := true, data_sharing := false } }]
      (some "bob") (some "a@x.com") (some "pass123") (some "pass123")
      "0123456789012345678901" "id2" 0 0).users
    = [{ _id := "id0", username := "alice", email := "a@x.com",
         password := "h", created_at := 0, last_login := 0,
         preferences := { theme := "light", notifications := true, data_sharing := false } }]
    ∧ (signup []
        [{ _id := "id0", username := "alice", email := "a@x.com",
           password := "h", created_at := 0, last_login := 0,
           preferences := { theme := "light", notifications := true, data_sharing := false } }]
        (some "bob") (some "a@x.com") (some "pass123") (some "pass123")
        "0123456789012345678901" "id2" 0 0).outcome
      = .formError "Email already registered" :=
  ⟨(duplicate_email_signup_rejected []
      [{ _id := "id0", username := "alice", email := "a@x.com",
         password := "h", created_at := 0, last_login := 0,
         preferences := { theme := "light", notifications := true, data_sharing := false } }]
      (some "bob") (some "pass123") (some "pass123") "a@x.com"
      "0123456789012345678901" "id2" 0 0
      { _id := "id0", username := "alice", email := "a@x.com", password := "h",
        created_at := 0, last_login := 0,
        preferences := { theme := "light", notifications := true, data_sharing := false } }
      (by decide)).1,
   by decide⟩

end App
